import Mathlib

/-!
Shallow embedding of the fault-geometry model and forward-model pipeline of
`src/models/disloc.py` (classes `OkadaSource`, `OkadaSegment`, `OkadaPath`,
`DislocProcessor`).  Machine floats are modelled as real numbers; Python
runtime failures (`ZeroDivisionError` on float division by zero,
`IndexError` on list indexing, `ValueError` from `numpy.vstack`) are made
explicit with `Except`.  Python list indexing, including negative
wrap-around, and `list.insert` clamping are modelled by `pyIdx`, `pyGet`,
`pySet` and `pyInsert`.
-/

noncomputable section

namespace KiteDisloc

/-- Python runtime errors that the embedded code can raise. -/
inductive PyErr
  | zeroDivision
  | indexError
  | valueError
  | nameError
  deriving DecidableEq

/-- Resolve a Python list index (negative indices wrap around once;
anything further out of range is an `IndexError`, signalled by `none`). -/
def pyIdx (len : Nat) (i : Int) : Option Nat :=
  if 0 ≤ i ∧ i < (len : Int) then some i.toNat
  else if -(len : Int) ≤ i ∧ i < 0 then some ((len : Int) + i).toNat
  else none

/-- Python `l[i]`. -/
def pyGet (l : List α) (i : Int) : Option α :=
  (pyIdx l.length i).bind fun n => l[n]?

/-- Python `l[i] = x`. -/
def pySet (l : List α) (i : Int) (x : α) : Option (List α) :=
  (pyIdx l.length i).map fun n => l.set n x

/-- Python `l.insert(i, x)`: the insertion position is clamped, the call
never fails and always grows the list by one. -/
def pyInsert (l : List α) (i : Int) (x : α) : List α :=
  let n : Nat := if 0 ≤ i then min i.toNat l.length else ((l.length : Int) + i).toNat
  l.take n ++ x :: l.drop n

/-- The constant `d2r = pi / 180`. -/
def d2r : ℝ := Real.pi / 180

/-- The constant `r2d = 180 / pi`. -/
def r2d : ℝ := 180 / Real.pi

/-- The guts `Object` `OkadaSource`: a single rectangular dislocation patch. -/
structure OkadaSource where
  easting : ℝ
  northing : ℝ
  depth : ℝ
  width : ℝ
  length : ℝ
  strike : ℝ := 45
  dip : ℝ := 45
  rake : ℝ := 90
  slip : ℝ := 1.5
  nu : ℝ := 1.25
  opening : ℝ := 0

/-- Method `OkadaSource.dislocSource`: the 10-entry parameter vector handed to the
native solver; a vertical dip of exactly 90 degrees is perturbed by `1e-5`. -/
def OkadaSource.dislocSource (s : OkadaSource) : List ℝ :=
  let dip : ℝ := if s.dip = 90 then s.dip - 1 / 100000 else s.dip
  [s.length, s.width, s.depth, -dip, s.strike, s.easting, s.northing,
    Real.cos (s.rake * d2r) * s.slip, Real.sin (s.rake * d2r) * s.slip,
    s.opening]

/-- Class `OkadaSegment`: an `OkadaSource` with an `enabled` flag (default true). -/
structure OkadaSegment extends OkadaSource where
  enabled : Bool := true

/-- The parameter vector of a segment (inherited from `OkadaSource`). -/
def OkadaSegment.dislocSource (g : OkadaSegment) : List ℝ :=
  g.toOkadaSource.dislocSource

/-- The mutable state of an `OkadaPath`: node list, segment list and the
material constant `nu`. -/
structure OkadaPath where
  nodes : List (ℝ × ℝ)
  segments : List OkadaSegment
  nu : ℝ := 1.25

/-- Constructor `OkadaPath.__init__` with no explicit nodes: the node list starts with
the single origin node. -/
def mkOkadaPath (originEasting originNorthing : ℝ) : OkadaPath :=
  { nodes := [(originEasting, originNorthing)], segments := [], nu := 1.25 }

/-- Method `OkadaPath._newSegment` (no keyword overrides, as used by
`addNode`/`insertNode`): derives a fresh segment from the node pair
`(e1, n1) -> (e2, n2)`.  The Python code divides `dN` by `length`, which
raises `ZeroDivisionError` when the nodes coincide. -/
def newSegment (e1 n1 e2 n2 : ℝ) : Except PyErr OkadaSegment :=
  let dE := e2 - e1
  let dN := n2 - n1
  let length := Real.sqrt (dN ^ 2 + dE ^ 2)
  if length = 0 then .error .zeroDivision
  else
    .ok { northing := n1 + dN / 2
          easting := e1 + dE / 2
          depth := 0
          length := length
          width := 15 * length ^ (0.66 : ℝ)
          strike := Real.arccos (dN / length) * r2d
          slip := 45
          rake := 90 }

/-- Method `OkadaPath._moveSegment`: recomputes the geometry attributes of the
segment at Python index `pos` in place, from the node pair
`(e1, n1) -> (e2, n2)`; all other attributes of the segment object
(`depth`, `dip`, `rake`, `slip`, `nu`, `opening`, `enabled`) are kept. -/
def OkadaPath.moveSegment (p : OkadaPath) (pos : Int) (e1 n1 e2 n2 : ℝ) :
    Except PyErr OkadaPath :=
  let dE := e2 - e1
  let dN := n2 - n1
  let length := Real.sqrt (dN ^ 2 + dE ^ 2)
  if length = 0 then .error .zeroDivision
  else
    match pyGet p.segments pos with
    | none => .error .indexError
    | some seg =>
      let seg2 : OkadaSegment :=
        { seg with
            northing := n1 + dN / 2
            easting := e1 + dE / 2
            length := length
            width := 15 * length ^ (0.66 : ℝ)
            strike := Real.arccos (dN / length) * r2d }
      match pySet p.segments pos seg2 with
      | none => .error .indexError
      | some segs => .ok { p with segments := segs }

/-- Method `OkadaPath.addNode`: appends the node, then appends a segment derived
from the last two nodes (`nodes[-2]`, `nodes[-1]`). -/
def OkadaPath.addNode (p : OkadaPath) (easting northing : ℝ) :
    Except PyErr OkadaPath :=
  let nodes := p.nodes ++ [(easting, northing)]
  match pyGet nodes (-2), pyGet nodes (-1) with
  | some a, some b =>
    match newSegment a.1 a.2 b.1 b.2 with
    | .error e => .error e
    | .ok seg => .ok { p with nodes := nodes, segments := p.segments ++ [seg] }
  | _, _ => .error .indexError

/-- Method `OkadaPath.insertNode`: inserts the node at `pos`, *appends* a segment
derived from `nodes[pos], nodes[pos+1]`, then recomputes the segment at
index `pos - 1` from `nodes[pos-1], nodes[pos]`. -/
def OkadaPath.insertNode (p : OkadaPath) (pos : Int) (easting northing : ℝ) :
    Except PyErr OkadaPath :=
  let nodes := pyInsert p.nodes pos (easting, northing)
  match pyGet nodes pos, pyGet nodes (pos + 1) with
  | some a, some b =>
    match newSegment a.1 a.2 b.1 b.2 with
    | .error e => .error e
    | .ok seg =>
      let p1 : OkadaPath := { p with nodes := nodes, segments := p.segments ++ [seg] }
      match pyGet nodes (pos - 1), pyGet nodes pos with
      | some c, some d => p1.moveSegment (pos - 1) c.1 c.2 d.1 d.2
      | _, _ => .error .indexError
  | _, _ => .error .indexError

/-- Method `OkadaPath.moveNode`: overwrites `nodes[pos]`, then, guarded by
`pos < len(self)` and `pos != 0`, calls `_moveSegment` — both times with
segment index `pos`, exactly as the Python code does. -/
def OkadaPath.moveNode (p : OkadaPath) (pos : Int) (easting northing : ℝ) :
    Except PyErr OkadaPath :=
  match pySet p.nodes pos (easting, northing) with
  | none => .error .indexError
  | some nodes =>
    let p1 : OkadaPath := { p with nodes := nodes }
    let step1 : Except PyErr OkadaPath :=
      if pos < (p1.segments.length : Int) then
        match pyGet nodes pos, pyGet nodes (pos + 1) with
        | some a, some b => p1.moveSegment pos a.1 a.2 b.1 b.2
        | _, _ => .error .indexError
      else .ok p1
    match step1 with
    | .error e => .error e
    | .ok p2 =>
      if pos ≠ 0 then
        match pyGet p2.nodes (pos - 1), pyGet p2.nodes pos with
        | some c, some d => p2.moveSegment pos c.1 c.2 d.1 d.2
        | _, _ => .error .indexError
      else .ok p2

/-- Method `OkadaPath.dislocSource`: the rows (one per enabled segment, in
segment order) of the path's stacked source matrix. -/
def OkadaPath.dislocSource (p : OkadaPath) : List (List ℝ) :=
  (p.segments.filter (fun g => g.enabled)).map OkadaSegment.dislocSource

/-- Python `path.segments[i].enabled = b`. -/
def OkadaPath.setSegmentEnabled (p : OkadaPath) (i : Nat) (b : Bool) : OkadaPath :=
  match p.segments[i]? with
  | none => p
  | some g => { p with segments := p.segments.set i { g with enabled := b } }

/-- One editing operation on an `OkadaPath`. -/
inductive PathOp
  | add (easting northing : ℝ)
  | insert (pos : Int) (easting northing : ℝ)
  | move (pos : Int) (easting northing : ℝ)

/-- Apply one editing operation. -/
def applyOp (p : OkadaPath) : PathOp → Except PyErr OkadaPath
  | .add e n => p.addNode e n
  | .insert pos e n => p.insertNode pos e n
  | .move pos e n => p.moveNode pos e n

/-- Paths built from a single origin node by successful `addNode`,
`insertNode` and `moveNode` calls. -/
inductive ReachablePath : OkadaPath → Prop
  | origin (e n : ℝ) : ReachablePath (mkOkadaPath e n)
  | step {p q : OkadaPath} (op : PathOp) :
      ReachablePath p → applyOp p op = .ok q → ReachablePath q

/-- A numpy array as produced by the sources: either a 1-D vector
(`num.empty(10)` filled by `OkadaSource.dislocSource`, or `num.array([])`
for a path with no enabled segment) or a 2-D matrix of rows. -/
inductive NpArr
  | vec (v : List ℝ)
  | mat (rows : List (List ℝ))

/-- Function `num.array` of a list of rows: an empty list of rows gives the 1-D
empty array of shape `(0,)`, otherwise a 2-D matrix. -/
def npArrayOfRows (rows : List (List ℝ)) : NpArr :=
  match rows with
  | [] => .vec []
  | _ => .mat rows

/-- Function `num.atleast_2d`: a 1-D vector of length k becomes a 1 x k matrix. -/
def atleast2d : NpArr → List (List ℝ)
  | .vec v => [v]
  | .mat rows => rows

/-- The rows obtained by promoting each array to 2-D and concatenating. -/
def stackRows : List NpArr → List (List ℝ)
  | [] => []
  | a :: rest => atleast2d a ++ stackRows rest

/-- Function `num.vstack`: fails on an empty argument list and on mismatched column
counts, otherwise stacks all rows into one matrix. -/
def vstack (arrs : List NpArr) : Except PyErr NpArr :=
  match arrs with
  | [] => .error .valueError
  | _ :: _ =>
    match stackRows arrs with
    | [] => .error .valueError
    | r :: rs =>
      if rs.all (fun row => row.length = r.length) then .ok (.mat (r :: rs))
      else .error .valueError

/-- A source accepted by `DislocProcessor.process`: a standalone patch or a
path (both expose `dislocSource()` and `nu`). -/
inductive DislocSrc
  | patch (s : OkadaSource)
  | path (p : OkadaPath)

/-- Attribute access `src.dislocSource()` as a numpy array. -/
def DislocSrc.dislocArr : DislocSrc → NpArr
  | .patch s => .vec s.dislocSource
  | .path p => npArrayOfRows p.dislocSource

/-- Attribute access `src.nu`. -/
def DislocSrc.nu : DislocSrc → ℝ
  | .patch s => s.nu
  | .path p => p.nu

/-- Overwrite the `nu` attribute of a source. -/
def DislocSrc.setNu : DislocSrc → ℝ → DislocSrc
  | .patch s, v => .patch { s with nu := v }
  | .path p, v => .path { p with nu := v }

/-- The arguments `DislocProcessor.process` hands to the native solver
`disloc_ext.disloc`: the stacked source matrix and the material constant. -/
structure SolverCall where
  srcArr : NpArr
  nu : ℝ

/-- Method `DislocProcessor.process` up to the native-solver invocation:
`src_arr = num.vstack([src.dislocSource() for src in sources])` followed by
`disloc_ext.disloc(src_arr, coords, src.nu, nthreads)`, where `src` is the
leaked comprehension variable, i.e. the *last* element of `sources`.  An
`.ok` result means the native solver is invoked with these arguments. -/
def process (sources : List DislocSrc) : Except PyErr SolverCall :=
  match vstack (sources.map DislocSrc.dislocArr) with
  | .error e => .error e
  | .ok arr =>
    match sources.getLast? with
    | some last => .ok { srcArr := arr, nu := last.nu }
    | none => .error .nameError

/-! Concrete states used to evaluate the operations at specific inputs. -/

/-- A segment whose geometry matches the node pair `(0,0) -> (0,1000)`
(midpoint `(0, 500)`). -/
def segA : OkadaSegment :=
  { easting := 0, northing := 500, depth := 0, width := 100, length := 1000,
    strike := 0, slip := 45, rake := 90 }

/-- A segment whose geometry matches the node pair `(0,1000) -> (0,2000)`
(midpoint `(0, 1500)`). -/
def segB : OkadaSegment :=
  { easting := 0, northing := 1500, depth := 0, width := 100, length := 1000,
    strike := 0, slip := 45, rake := 90 }

/-- A two-node path with its single segment. -/
def pathTwo : OkadaPath :=
  { nodes := [(0, 0), (0, 1000)], segments := [segA], nu := 1.25 }

/-- A three-node path with its two segments. -/
def pathThree : OkadaPath :=
  { nodes := [(0, 0), (0, 1000), (0, 2000)], segments := [segA, segB], nu := 1.25 }

/-- What `moveNode(1, 500, 1000)` on `pathThree` leaves at segment index 1:
the geometry of the node pair `(0,0) -> (500,1000)` written on top of
`segB` (by the second `_moveSegment` call, which reuses index `pos`). -/
def segBMoved : OkadaSegment :=
  { segB with
      northing := 500, easting := 250,
      length := Real.sqrt 1250000,
      width := 15 * Real.sqrt 1250000 ^ (0.66 : ℝ),
      strike := Real.arccos (1000 / Real.sqrt 1250000) * r2d }

/-- Segment `segA` after `insertNode(1, 500, 500)` on `pathThree` recomputes it
from the node pair `(0,0) -> (500,500)`. -/
def segAIns : OkadaSegment :=
  { segA with
      northing := 250, easting := 250,
      length := Real.sqrt 500000,
      width := 15 * Real.sqrt 500000 ^ (0.66 : ℝ),
      strike := Real.arccos (500 / Real.sqrt 500000) * r2d }

/-- The fresh segment `insertNode(1, 500, 500)` on `pathThree` derives from
the node pair `(500,500) -> (0,1000)` and appends at the end. -/
def segNew : OkadaSegment :=
  { easting := 250, northing := 750, depth := 0,
    length := Real.sqrt 500000,
    width := 15 * Real.sqrt 500000 ^ (0.66 : ℝ),
    strike := Real.arccos (500 / Real.sqrt 500000) * r2d,
    slip := 45, rake := 90 }

/-- The segment `addNode 0 1000` on a path at the origin derives from the
node pair `(0,0) -> (0,1000)`. -/
def segFirst : OkadaSegment :=
  { easting := 0, northing := 500, depth := 0, length := 1000,
    width := 15 * (1000 : ℝ) ^ (0.66 : ℝ), strike := 0, slip := 45, rake := 90 }

/-- The path reached from origin `(0,0)` by `addNode 0 1000`. -/
def pathReached : OkadaPath :=
  { nodes := [(0, 0), (0, 1000)], segments := [segFirst], nu := 1.25 }

/-- The segment left at index 1 by `insertNode(0, 0, -1000)` on `pathTwo`:
the freshly appended segment (derived from `(0,-1000) -> (0,0)`, midpoint
northing `-500`) gets overwritten through the negative index
`segments[-1]` with the geometry of the reversed pair
`(0,1000) -> (0,-1000)` (midpoint northing `0`, southward bearing). -/
def segWrapped : OkadaSegment :=
  { easting := 0, northing := 0, depth := 0,
    width := 15 * Real.sqrt 4000000 ^ (0.66 : ℝ),
    length := Real.sqrt 4000000,
    strike := Real.arccos (-2000 / Real.sqrt 4000000) * r2d,
    slip := 45, rake := 90 }

/-- A disabled segment. -/
def segDisabled : OkadaSegment :=
  { easting := 0, northing := 500, depth := 0, width := 100, length := 1000,
    strike := 0, slip := 45, rake := 90, enabled := false }

/-- A path all of whose segments are disabled. -/
def pathDisabled : OkadaPath :=
  { nodes := [(0, 0), (0, 1000)], segments := [segDisabled], nu := 1.25 }

/-- A standalone patch with `nu = 1`. -/
def srcNuOne : OkadaSource :=
  { easting := 0, northing := 0, depth := 2000, width := 5000, length := 10000,
    strike := 45, dip := 45, rake := 90, slip := 1.5, nu := 1 }

/-- A standalone patch with `nu = 2`. -/
def srcNuTwo : OkadaSource :=
  { easting := 100, northing := 100, depth := 2000, width := 5000, length := 10000,
    strike := 45, dip := 45, rake := 90, slip := 1.5, nu := 2 }

/-- The solver call produced by `process [patch srcNuOne, patch srcNuTwo]`. -/
def callNuTwo : SolverCall :=
  { srcArr := .mat [srcNuOne.dislocSource, srcNuTwo.dislocSource],
    nu := srcNuTwo.nu }

/-! Helper lemmas. -/

lemma sqrt_sum_sq_eq_zero_iff (a b : ℝ) :
    Real.sqrt (a ^ 2 + b ^ 2) = 0 ↔ a = 0 ∧ b = 0 := by
  rw [Real.sqrt_eq_zero (by positivity)]
  constructor
  · intro h
    constructor <;> nlinarith [sq_nonneg a, sq_nonneg b]
  · rintro ⟨ha, hb⟩
    simp [ha, hb]

lemma pySet_some_length {l q : List α} {i : Int} {x : α}
    (h : pySet l i x = some q) : q.length = l.length := by
  unfold pySet at h
  cases hp : pyIdx l.length i with
  | none => rw [hp] at h; simp at h
  | some n =>
    rw [hp] at h
    simp only [Option.map_some'] at h
    injection h with h
    rw [← h, List.length_set]

lemma pyInsert_length (l : List α) (i : Int) (x : α) :
    (pyInsert l i x).length = l.length + 1 := by
  simp only [pyInsert, List.length_append, List.length_cons, List.length_take,
    List.length_drop]
  split <;> omega

lemma moveSegment_ok_shape {p q : OkadaPath} {pos : Int} {e1 n1 e2 n2 : ℝ}
    (h : p.moveSegment pos e1 n1 e2 n2 = .ok q) :
    q.nodes = p.nodes ∧ q.segments.length = p.segments.length ∧ q.nu = p.nu := by
  simp only [OkadaPath.moveSegment] at h
  split at h
  · simp at h
  · split at h
    · simp at h
    · split at h
      · simp at h
      · rename_i segs hset
        injection h with h
        subst h
        exact ⟨rfl, pySet_some_length hset, rfl⟩

lemma addNode_ok_shape {p q : OkadaPath} {e n : ℝ}
    (h : p.addNode e n = .ok q) :
    q.nodes.length = p.nodes.length + 1 ∧
    q.segments.length = p.segments.length + 1 := by
  simp only [OkadaPath.addNode] at h
  split at h
  · split at h
    · simp at h
    · injection h with h
      subst h
      simp
  · simp at h

lemma insertNode_ok_shape {p q : OkadaPath} {pos : Int} {e n : ℝ}
    (h : p.insertNode pos e n = .ok q) :
    q.nodes.length = p.nodes.length + 1 ∧
    q.segments.length = p.segments.length + 1 := by
  simp only [OkadaPath.insertNode] at h
  split at h
  · split at h
    · simp at h
    · split at h
      · obtain ⟨hn, hs, _⟩ := moveSegment_ok_shape h
        constructor
        · rw [hn]
          simp [pyInsert_length]
        · rw [hs]
          simp
      · simp at h
  · simp at h

lemma moveNode_ok_shape {p q : OkadaPath} {pos : Int} {e n : ℝ}
    (h : p.moveNode pos e n = .ok q) :
    q.nodes.length = p.nodes.length ∧
    q.segments.length = p.segments.length := by
  simp only [OkadaPath.moveNode] at h
  split at h
  · simp at h
  · rename_i nodes hset
    split at h
    · simp at h
    · rename_i p2 hstep
      have hp2 : p2.nodes.length = p.nodes.length ∧
          p2.segments.length = p.segments.length := by
        split at hstep
        · split at hstep
          · obtain ⟨hn, hs, _⟩ := moveSegment_ok_shape hstep
            constructor
            · rw [hn]
              simpa using pySet_some_length hset
            · simpa using hs
          · simp at hstep
        · injection hstep with hstep
          subst hstep
          constructor
          · simpa using pySet_some_length hset
          · rfl
      split at h
      · split at h
        · obtain ⟨hn, hs, _⟩ := moveSegment_ok_shape h
          rw [hn, hs]
          exact hp2
        · simp at h
      · injection h with h
        subst h
        exact hp2

lemma reachable_node_count {p : OkadaPath} (h : ReachablePath p) :
    p.nodes.length = p.segments.length + 1 := by
  induction h with
  | origin e n => simp [mkOkadaPath]
  | step op hr heq ih =>
    cases op with
    | add e n => have := addNode_ok_shape heq; omega
    | insert pos e n => have := insertNode_ok_shape heq; omega
    | move pos e n => have := moveNode_ok_shape heq; omega

lemma addNode_origin : (mkOkadaPath 0 0).addNode 0 1000 = .ok pathReached := by
  have hs : Real.sqrt 1000000 = 1000 := by
    rw [show (1000000 : ℝ) = 1000 ^ 2 by norm_num, Real.sqrt_sq (by norm_num)]
  norm_num [OkadaPath.addNode, mkOkadaPath, pyGet, pyIdx, newSegment,
    pathReached, segFirst, hs, Real.arccos_one, OkadaSegment.mk.injEq,
    OkadaSource.mk.injEq]

lemma pathReached_reachable : ReachablePath pathReached :=
  ReachablePath.step (.add 0 1000) (ReachablePath.origin 0 0) addNode_origin

lemma filter_set_of_false (q : α → Bool) :
    ∀ (l : List α) (i : Nat) (x : α), q x = false → i < l.length →
      (l.set i x).filter q = (l.eraseIdx i).filter q := by
  intro l
  induction l with
  | nil =>
    intro i x _ hi
    simp at hi
  | cons a t ih =>
    intro i x hx hi
    cases i with
    | zero => simp [List.filter_cons, hx]
    | succ n =>
      simp only [List.set_cons_succ, List.eraseIdx_cons_succ, List.filter_cons]
      rw [ih n x hx (by simpa using hi)]

lemma getElem?_set_self {l : List α} {i : Nat} {x : α} (h : i < l.length) :
    (l.set i x)[i]? = some x := by
  induction l generalizing i with
  | nil => simp at h
  | cons a t ih =>
    cases i with
    | zero => simp
    | succ n =>
      simp only [List.set_cons_succ, List.getElem?_cons_succ]
      exact ih (by simpa using h)

lemma getLast?_append_single (l : List α) (x : α) :
    (l ++ [x]).getLast? = some x :=
  List.getLast?_concat l

lemma dislocArr_setNu (s : DislocSrc) (v : ℝ) :
    (s.setNu v).dislocArr = s.dislocArr := by
  cases s <;> rfl

lemma map_dislocArr_set_nu (l : List DislocSrc) (i : Nat) (h : i < l.length)
    (v : ℝ) :
    (l.set i ((l.get ⟨i, h⟩).setNu v)).map DislocSrc.dislocArr =
      l.map DislocSrc.dislocArr := by
  induction l generalizing i with
  | nil => simp at h
  | cons a t ih =>
    cases i with
    | zero => simp [dislocArr_setNu]
    | succ n =>
      simp only [List.set_cons_succ, List.map_cons]
      congr 1
      exact ih n (by simpa using h)

/-! The claims. -/

/-- Claim C1: for every Fault Path built from a single origin node, after
every successful `addNode`, `insertNode` or `moveNode` call that leaves the
path with at least two nodes, the number of segments equals the number of
nodes minus one. -/
theorem path_segment_count_invariant :
    ∀ p : OkadaPath, ReachablePath p → 2 ≤ p.nodes.length →
      p.segments.length = p.nodes.length - 1 := by
  intro p h _
  have := reachable_node_count h
  omega

/-- Witness for C1: the path reached from the origin by one `addNode` call
has two nodes and one segment. -/
theorem path_segment_count_invariant_witness :
    2 ≤ pathReached.nodes.length ∧
    pathReached.segments.length = pathReached.nodes.length - 1 :=
  ⟨by norm_num [pathReached],
    path_segment_count_invariant pathReached pathReached_reachable
      (by norm_num [pathReached])⟩

/-- Claim C4: deriving a segment from two coincident node points fails with
the division-by-zero geometry error — in `_newSegment` and likewise in the
recomputation `_moveSegment` used by `moveNode`/`insertNode` — rather than
producing a degenerate segment. -/
theorem coincident_nodes_geometry_error :
    ∀ (e n : ℝ) (p : OkadaPath) (pos : Int),
      newSegment e n e n = .error .zeroDivision ∧
      p.moveSegment pos e n e n = .error .zeroDivision := by
  intro e n p pos
  constructor
  · simp [newSegment]
  · simp [OkadaPath.moveSegment]

/-- Claim C6: in the derived 10-entry source vector, entry 5 is the patch's
easting and entry 6 its northing, both unchanged, and entry 3 is `-dip`
except at `dip = 90`, where it is `-(90 - eps)` with `eps = 1e-5 > 0`. -/
theorem dislocSource_entries (s : OkadaSource) :
    s.dislocSource.getD 5 0 = s.easting ∧
    s.dislocSource.getD 6 0 = s.northing ∧
    s.dislocSource.getD 3 0 =
      (if s.dip = 90 then -(90 - 1 / 100000) else -s.dip) ∧
    (0 : ℝ) < 1 / 100000 := by
  refine ⟨by simp [OkadaSource.dislocSource], by simp [OkadaSource.dislocSource],
    ?_, by norm_num⟩
  simp only [OkadaSource.dislocSource, List.getD_cons_succ, List.getD_cons_zero]
  split_ifs with h
  · rw [h]
  · rfl

/-- Claim C7: the segment derived from nodes `(0,0)` and `(0,L)`, `L > 0`,
has length `L` and strike `0`; the one derived from `(0,0)` and `(L,0)` has
strike `90`. -/
theorem newSegment_cardinal_strikes :
    ∀ L : ℝ, 0 < L →
      ∃ s1 s2 : OkadaSegment,
        newSegment 0 0 0 L = .ok s1 ∧ s1.length = L ∧ s1.strike = 0 ∧
        newSegment 0 0 L 0 = .ok s2 ∧ s2.strike = 90 := by
  intro L hL
  have h1 : Real.sqrt ((L - 0) ^ 2 + ((0 : ℝ) - 0) ^ 2) = L := by
    simp only [sub_zero, sub_self]
    rw [show L ^ 2 + (0 : ℝ) ^ 2 = L ^ 2 by ring, Real.sqrt_sq hL.le]
  have h2 : Real.sqrt (((0 : ℝ) - 0) ^ 2 + (L - 0) ^ 2) = L := by
    simp only [sub_zero, sub_self]
    rw [show (0 : ℝ) ^ 2 + L ^ 2 = L ^ 2 by ring, Real.sqrt_sq hL.le]
  simp only [newSegment]
  rw [if_neg (by rw [h1]; exact hL.ne'), if_neg (by rw [h2]; exact hL.ne')]
  refine ⟨_, _, rfl, ?_, ?_, rfl, ?_⟩
  · exact h1
  · show Real.arccos ((L - 0) / Real.sqrt ((L - 0) ^ 2 + ((0 : ℝ) - 0) ^ 2)) * r2d = 0
    rw [h1, sub_zero, div_self hL.ne', Real.arccos_one, zero_mul]
  · show Real.arccos (((0 : ℝ) - 0) / Real.sqrt (((0 : ℝ) - 0) ^ 2 + (L - 0) ^ 2)) * r2d = 90
    rw [h2, sub_self, zero_div, Real.arccos_zero, r2d]
    field_simp
    ring

/-- Witness for C7 at `L = 1000`. -/
theorem newSegment_cardinal_strikes_witness :
    (0 : ℝ) < 1000 ∧
    ∃ s1 s2 : OkadaSegment,
      newSegment 0 0 0 1000 = .ok s1 ∧ s1.length = 1000 ∧ s1.strike = 0 ∧
      newSegment 0 0 1000 0 = .ok s2 ∧ s2.strike = 90 :=
  ⟨by norm_num, newSegment_cardinal_strikes 1000 (by norm_num)⟩

/-- Claim C8: setting a segment's `enabled` flag to false removes exactly
that segment's row from the path's `dislocSource()` output (the remaining
enabled segments contribute in order), while the segment itself stays in
the segment sequence (with the flag flipped) and the node sequence is
unchanged. -/
theorem disable_segment_removes_row :
    ∀ (p : OkadaPath) (i : Nat) (h : i < p.segments.length),
      (p.setSegmentEnabled i false).dislocSource =
        ((p.segments.eraseIdx i).filter (fun g => g.enabled)).map
          OkadaSegment.dislocSource ∧
      (p.setSegmentEnabled i false).segments.length = p.segments.length ∧
      (p.setSegmentEnabled i false).nodes = p.nodes ∧
      (p.setSegmentEnabled i false).segments[i]? =
        some { p.segments.get ⟨i, h⟩ with enabled := false } := by
  intro p i h
  have hget : p.segments[i]? = some (p.segments.get ⟨i, h⟩) := by
    rw [List.get_eq_getElem, List.getElem?_eq_getElem h]
  have hwrite : p.setSegmentEnabled i false =
      { p with segments :=
          p.segments.set i { p.segments.get ⟨i, h⟩ with enabled := false } } := by
    unfold OkadaPath.setSegmentEnabled
    rw [hget]
  rw [hwrite]
  refine ⟨?_, by simp, rfl, getElem?_set_self (by simpa using h)⟩
  unfold OkadaPath.dislocSource
  rw [filter_set_of_false (fun g => g.enabled) p.segments i _ rfl h]

/-- Witness for C8 on the concrete three-node path, disabling segment 0. -/
theorem disable_segment_removes_row_witness :
    (pathThree.setSegmentEnabled 0 false).dislocSource =
      ((pathThree.segments.eraseIdx 0).filter (fun g => g.enabled)).map
        OkadaSegment.dislocSource ∧
    (pathThree.setSegmentEnabled 0 false).segments.length =
      pathThree.segments.length ∧
    (pathThree.setSegmentEnabled 0 false).nodes = pathThree.nodes ∧
    (pathThree.setSegmentEnabled 0 false).segments[0]? =
      some { pathThree.segments.get ⟨0, by norm_num [pathThree]⟩ with
               enabled := false } :=
  disable_segment_removes_row pathThree 0 (by norm_num [pathThree])

/-- Claim C2 (refuted by the code): `moveNode` at the last node index does
not skip the non-existent neighboring segment — the second `_moveSegment`
call reuses index `pos` instead of `pos - 1`, reads `segments[pos]`, which
is out of range, and the call raises `IndexError`; and `insertNode` at
index 0 calls `_moveSegment(-1)`, which wraps around to the last segment
(the one just appended) and overwrites it with the geometry of the
reversed node pair `(0,1000) -> (0,-1000)` instead of skipping it. -/
theorem moveNode_last_index_out_of_range :
    pathTwo.moveNode 1 500 500 = .error .indexError ∧
    pathTwo.insertNode 0 0 (-1000) = .ok
      { nodes := [(0, -1000), (0, 0), (0, 1000)],
        segments := [segA, segWrapped], nu := 1.25 } := by
  constructor
  · norm_num [OkadaPath.moveNode, OkadaPath.moveSegment, pathTwo, segA, pySet,
      pyGet, pyIdx, sqrt_sum_sq_eq_zero_iff]
  · norm_num [OkadaPath.insertNode, OkadaPath.moveSegment, newSegment, pathTwo,
      pySet, pyGet, pyIdx, pyInsert, sqrt_sum_sq_eq_zero_iff, segA, segWrapped,
      show (2 : ℤ).toNat = 2 from rfl, show (1 : ℤ).toNat = 1 from rfl,
      OkadaPath.mk.injEq, OkadaSegment.mk.injEq, OkadaSource.mk.injEq]

/-- Claim C3 (refuted by the code): `moveNode(1, 500, 1000)` on the
three-node path recomputes segment 1 twice — the second `_moveSegment`
call passes index `pos` instead of `pos - 1` — leaving segment 1 with the
geometry of the node pair `(0, 1)` (northing 500 instead of the pair
`(1, 2)` midpoint northing 1500) and leaving segment 0 untouched (its
easting stays 0 instead of becoming the recomputed midpoint 250). -/
theorem moveNode_wrong_segment_updated :
    pathThree.moveNode 1 500 1000 =
      .ok { nodes := [(0, 0), (500, 1000), (0, 2000)],
            segments := [segA, segBMoved], nu := 1.25 } ∧
    segA.easting = 0 ∧ segBMoved.northing = 500 ∧ segB.northing = 1500 := by
  refine ⟨?_, rfl, rfl, rfl⟩
  norm_num [OkadaPath.moveNode, OkadaPath.moveSegment, pathThree, pySet, pyGet,
    pyIdx, sqrt_sum_sq_eq_zero_iff, segA, segB, segBMoved,
    show (2 : ℤ).toNat = 2 from rfl,
    OkadaPath.mk.injEq, OkadaSegment.mk.injEq, OkadaSource.mk.injEq]

/-- Claim C5 (refuted by the code): `insertNode(1, 500, 500)` on the
three-node path appends the new `(pos, pos+1)` segment at the end of the
segment list (index 2) instead of inserting it at index `pos = 1`; index 1
still holds the old segment `segB` (northing 1500), while the new segment
(northing 750) sits last.  The preceding segment is indeed recomputed in
place (`segAIns`). -/
theorem insertNode_appends_segment :
    pathThree.insertNode 1 500 500 =
      .ok { nodes := [(0, 0), (500, 500), (0, 1000), (0, 2000)],
            segments := [segAIns, segB, segNew], nu := 1.25 } ∧
    segB.northing = 1500 ∧ segNew.northing = 750 := by
  refine ⟨?_, rfl, rfl⟩
  norm_num [OkadaPath.insertNode, OkadaPath.moveSegment, newSegment, pathThree,
    pySet, pyGet, pyIdx, pyInsert, sqrt_sum_sq_eq_zero_iff, segA, segB,
    segAIns, segNew, show (2 : ℤ).toNat = 2 from rfl,
    OkadaPath.mk.injEq, OkadaSegment.mk.injEq, OkadaSource.mk.injEq]

/-- Counterexample to Claim C9 as stated: for a sources collection whose
only element is a path with all segments disabled, `process` does not fail
— it reaches the native-solver invocation (an `.ok` result) with a
zero-column batch, because `num.vstack` promotes the 1-D empty array to a
`(1, 0)` matrix instead of raising. -/
theorem process_all_disabled_invokes_solver :
    process [DislocSrc.path pathDisabled] =
      .ok { srcArr := .mat [[]], nu := 1.25 } := by
  rfl

/-- Claim C9, amended: with an empty sources sequence, `process` fails
(`num.vstack` raises `ValueError`) before the native solver is invoked;
but a non-empty sources collection with no enabled segments is not caught:
for a single path whose segments are all disabled, the solver is invoked
with an empty zero-column batch. -/
theorem process_empty_vs_disabled :
    process ([] : List DislocSrc) = .error .valueError ∧
    ∀ p : OkadaPath, p.dislocSource = [] →
      process [DislocSrc.path p] = .ok { srcArr := .mat [[]], nu := p.nu } := by
  refine ⟨rfl, ?_⟩
  intro p hp
  simp [process, vstack, stackRows, atleast2d, npArrayOfRows,
    DislocSrc.dislocArr, DislocSrc.nu, hp]

/-- Witness for the amended C9: the concrete all-disabled path reaches the
solver with the empty batch. -/
theorem process_empty_vs_disabled_witness :
    process [DislocSrc.path pathDisabled] =
      .ok { srcArr := .mat [[]], nu := pathDisabled.nu } :=
  process_empty_vs_disabled.2 pathDisabled rfl

/-- Claim C10: the material constant handed to the native solver is the
`nu` of the *last* element of `sources` (the leaked comprehension
variable), and the `nu` values of all other sources have no effect on the
solver call — in particular a mixed-`nu` batch is not rejected. -/
theorem process_nu_from_last_source :
    (∀ (l : List DislocSrc) (x : DislocSrc) (call : SolverCall),
        process (l ++ [x]) = .ok call → call.nu = x.nu) ∧
    (∀ (l : List DislocSrc) (i : Nat) (h : i < l.length) (v : ℝ)
        (x : DislocSrc),
        process ((l.set i ((l.get ⟨i, h⟩).setNu v)) ++ [x]) =
          process (l ++ [x])) := by
  constructor
  · intro l x call h
    simp only [process] at h
    split at h
    · simp at h
    · rw [getLast?_append_single] at h
      injection h with h
      rw [← h]
  · intro l i h v x
    have harr : ((l.set i ((l.get ⟨i, h⟩).setNu v)) ++ [x]).map
        DislocSrc.dislocArr = (l ++ [x]).map DislocSrc.dislocArr := by
      rw [List.map_append, List.map_append, map_dislocArr_set_nu l i h v]
    have hlast : ((l.set i ((l.get ⟨i, h⟩).setNu v)) ++ [x]).getLast? =
        (l ++ [x]).getLast? := by
      rw [getLast?_append_single, getLast?_append_single]
    simp only [process, harr, hlast]

/-- Witness for C10: two patches with different `nu`; the call carries the
second patch's `nu = 2`, and overwriting the first patch's `nu` does not
change the solver call at all. -/
theorem process_nu_from_last_source_witness :
    (process ([DislocSrc.patch srcNuOne] ++ [DislocSrc.patch srcNuTwo]) =
        .ok callNuTwo ∧
      callNuTwo.nu = (DislocSrc.patch srcNuTwo).nu) ∧
    process (([DislocSrc.patch srcNuOne].set 0
          (([DislocSrc.patch srcNuOne].get ⟨0, by norm_num⟩).setNu 7)) ++
        [DislocSrc.patch srcNuTwo]) =
      process ([DislocSrc.patch srcNuOne] ++ [DislocSrc.patch srcNuTwo]) :=
  ⟨⟨rfl,
      process_nu_from_last_source.1 [DislocSrc.patch srcNuOne]
        (DislocSrc.patch srcNuTwo) callNuTwo rfl⟩,
    process_nu_from_last_source.2 [DislocSrc.patch srcNuOne] 0 (by norm_num) 7
      (DislocSrc.patch srcNuTwo)⟩

end KiteDisloc
